import Mathlib

/-!
# Verification of the update orchestration engine

Shallow embedding of the over-the-air update engine
(`src/composables/updater.ts`, `src/composables/web_assets_updater.ts`,
`src/composables/apk_updater.ts`, `src/services/updater.service.ts`,
`src/models/updater.model.ts`) together with proofs about its behaviour.

The embedding follows the TypeScript line by line:

* `localStorage` is an association list from string keys to string values
  (`Store`); reads and writes are total, as they are at runtime.
* JavaScript `Number(...)` coercion of a version component is `jsNumber`,
  returning `none` for `NaN`; `undefined` (out-of-range array index) is also
  modelled as `none`, since both `NaN` and `undefined` compare as `false`
  under `<` and `>` in JavaScript.
* asynchronous collaborator calls (HTTP fetch, Capacitor plugin calls,
  filesystem calls) are resolved through explicit oracles describing their
  outcomes; user-visible dialogs and plugin invocations are recorded in an
  event trace.
-/

namespace QuasarUpdater

/-! ## localStorage model -/

/-- Association-list lookup for the `localStorage` model. -/
def lookupKV : List (String × String) → String → Option String
  | [], _ => none
  | (k, v) :: rest, key => if k = key then some v else lookupKV rest key

/-- Association-list update (replace in place, append if absent). -/
def insertKV : List (String × String) → String → String → List (String × String)
  | [], key, val => [(key, val)]
  | (k, v) :: rest, key, val =>
      if k = key then (key, val) :: rest else (k, v) :: insertKV rest key val

/-- Model of `localStorage`: a persisted mapping from string keys to string values. -/
structure Store where
  entries : List (String × String)
deriving DecidableEq, Repr

/-- Models `localStorage.getItem(key)`. -/
def Store.get (s : Store) (key : String) : Option String :=
  lookupKV s.entries key

/-- Models `localStorage.setItem(key, val)`. -/
def Store.set (s : Store) (key val : String) : Store :=
  ⟨insertKV s.entries key val⟩

theorem lookupKV_insertKV_self (l : List (String × String)) (key val : String) :
    lookupKV (insertKV l key val) key = some val := by
  induction l with
  | nil => simp [insertKV, lookupKV]
  | cons kv rest ih =>
      obtain ⟨k, v⟩ := kv
      by_cases h : k = key
      · simp [insertKV, lookupKV, h]
      · simp [insertKV, lookupKV, h, ih]

theorem lookupKV_insertKV_ne (l : List (String × String)) (key val k' : String)
    (h : k' ≠ key) : lookupKV (insertKV l key val) k' = lookupKV l k' := by
  induction l with
  | nil => simp [insertKV, lookupKV, Ne.symm h]
  | cons kv rest ih =>
      obtain ⟨k, v⟩ := kv
      by_cases hk : k = key
      · subst hk
        simp only [insertKV, if_pos rfl, lookupKV]
        rw [if_neg (fun hkk => h hkk.symm), if_neg (fun hkk => h hkk.symm)]
      · simp only [insertKV, if_neg hk, lookupKV]
        by_cases hk' : k = k'
        · simp [hk']
        · simp [hk', ih]

/-- Writing a key makes it readable (`setItem` then `getItem`). -/
theorem Store.get_set_self (s : Store) (key val : String) :
    (s.set key val).get key = some val :=
  lookupKV_insertKV_self s.entries key val

/-- Writing one key leaves every other key unchanged. -/
theorem Store.get_set_ne (s : Store) (key val k' : String) (h : k' ≠ key) :
    (s.set key val).get k' = s.get k' :=
  lookupKV_insertKV_ne s.entries key val k' h

/-! ## Version comparator (`updater.ts`, `isNewerVersion`, lines 128–154)

`remote.split('.').map(Number)` followed by a three-step loop comparing
`remoteParts[i] > localParts[i]` / `remoteParts[i] < localParts[i]`.
-/

/-- The JavaScript `split('.')`: split on every `'.'`, keeping empty
pieces (`"".split('.') === [""]`, `"a..b".split('.') === ["a","","b"]`). -/
def splitDotAux : List Char → List Char → List String
  | [], acc => [String.mk acc.reverse]
  | c :: rest, acc =>
      if c = '.' then String.mk acc.reverse :: splitDotAux rest []
      else splitDotAux rest (c :: acc)

/-- Models the JavaScript `s.split('.')`. -/
def splitDot (s : String) : List String :=
  splitDotAux s.data []

/-- Whitespace characters stripped by JavaScript `Number(...)` coercion. -/
def isJsSpace (c : Char) : Bool :=
  c = ' ' || c = '\t' || c = '\n' || c = '\r'

/-- Decimal digit-string value: `some` of the value when every character is a
digit and the string is non-empty, `none` otherwise. -/
def digitsValAux : List Char → Nat → Option Nat
  | [], acc => some acc
  | c :: rest, acc =>
      if c.isDigit then digitsValAux rest (acc * 10 + (c.toNat - '0'.toNat))
      else none

/-- Value of a non-empty all-digit character list, else `none`. -/
def digitsVal : List Char → Option Nat
  | [] => none
  | l => digitsValAux l 0

/-- JavaScript `Number(component)` on a component produced by `split('.')`
(so the component contains no `'.'`): surrounding whitespace is trimmed, the
empty string coerces to `0`, an optionally signed decimal integer literal
coerces to its value, and anything else is `NaN`, modelled as `none`. -/
def jsNumber (s : String) : Option Int :=
  let t := ((s.data.dropWhile (fun c => isJsSpace c)).reverse.dropWhile
    (fun c => isJsSpace c)).reverse
  match t with
  | [] => some 0
  | '+' :: rest => (digitsVal rest).map Int.ofNat
  | '-' :: rest => (digitsVal rest).map (fun n => -(n : Int))
  | l => (digitsVal l).map Int.ofNat

/-- Models `version.split('.').map(Number)`: the list of coerced components, `none`
standing for `NaN`. -/
def parseParts (s : String) : List (Option Int) :=
  (splitDot s).map jsNumber

/-- JavaScript `a > b` where either operand may be `NaN`/`undefined`
(modelled as `none`): any comparison against `NaN` is `false`. -/
def jsGT : Option Int → Option Int → Bool
  | some a, some b => a > b
  | _, _ => false

/-- JavaScript `a < b` with `NaN`/`undefined` as `none`. -/
def jsLT : Option Int → Option Int → Bool
  | some a, some b => a < b
  | _, _ => false

/-- One iteration of the comparison loop at index `i`: `some true` when the
loop returns `true` (`remoteParts[i] > localParts[i]`), `some false` when it
returns `false` (`remoteParts[i] < localParts[i]`), `none` when it falls
through to the next index. Out-of-range indices read `undefined` (`none`). -/
def decideAt (rp lp : List (Option Int)) (i : Nat) : Option Bool :=
  let r := rp.getD i none
  let l := lp.getD i none
  if jsGT r l then some true
  else if jsLT r l then some false
  else none

/-- Models `isNewerVersion(remote, local)` from `updater.ts` lines 128–154:
falsy (empty) inputs return `false`; otherwise both strings are split and
coerced, and indices `0`, `1`, `2` are examined in order, the first index
whose comparison is decided returning, and fall-through returning `false`. -/
def isNewerVersion (remote localV : String) : Bool :=
  if remote = "" || localV = "" then false
  else
    let rp := parseParts remote
    let lp := parseParts localV
    (((decideAt rp lp 0).orElse fun _ => decideAt rp lp 1).orElse
      fun _ => decideAt rp lp 2).getD false

example : parseParts "1.0.1" = [some 1, some 0, some 1] := by decide
example : parseParts "1.0" = [some 1, some 0] := by decide
example : parseParts "1.a.0" = [some 1, none, some 0] := by decide
example : isNewerVersion "1.0.1" "1.0" = false := by decide
example : isNewerVersion "1.0.5" "1.0.4" = true := by decide
example : isNewerVersion "1.0.4" "1.0.4" = false := by decide
example : isNewerVersion "1.a.0" "0.0.0" = true := by decide
example : isNewerVersion "1.a.0" "1.0.0" = false := by decide
example : isNewerVersion "1.a.5" "1.b.0" = true := by decide

/-! ## Data model (`updater.model.ts`) and environment -/

/-- The `UpdateInfo` interface (`src/models/updater.model.ts`): the remote-supplied update
descriptor. -/
structure UpdateInfo where
  version : String
  notes : Option String
  url : String
  sessionKey : String
  updateType : String
  web_assets_url : String
deriving DecidableEq, Repr

/-- Build-time environment: `process.env.APP_VERSION` (possibly unset). -/
structure Env where
  appVersion : Option String
deriving DecidableEq, Repr

/-- Models `process.env.APP_VERSION || '1.0.0'` — the JavaScript `||` falls through
on the falsy values `undefined` and `""`. -/
def envDefault (e : Env) : String :=
  match e.appVersion with
  | some v => if v = "" then "1.0.0" else v
  | none => "1.0.0"

/-! ## Update checker (`updater.ts`, class `Updater`) -/

/-- The `VERSION_KEYS` table (`updater.ts` lines 10–13) combined with the key choice
`updateType === 'apk' ? VERSION_KEYS.apk : VERSION_KEYS.assets` used by
`getLocalVersion` (line 157) and `updateLocalVersion` (line 186). -/
def versionKey (updateType : String) : String :=
  if updateType = "apk" then "apkVersion" else "assetsVersion"

/-- Models `Updater.getLocalVersion(updateType)` (`updater.ts` lines 156–180): read
the per-track key; a missing or falsy (empty) stored value makes the default
be written back and returned. Returns the version together with the possibly
updated store. -/
def getLocalVersion (env : Env) (st : Store) (updateType : String) :
    String × Store :=
  let key := versionKey updateType
  match st.get key with
  | some v =>
      if v = "" then (envDefault env, st.set key (envDefault env))
      else (v, st)
  | none => (envDefault env, st.set key (envDefault env))

/-- Models `Updater.updateLocalVersion(updateType, newVersion)`
(`updater.ts` lines 182–194). -/
def updateLocalVersion (st : Store) (updateType newVersion : String) : Store :=
  st.set (versionKey updateType) newVersion

/-- Outcome of `updaterService.fetchUpdateInfo()` as seen by
`checkForNewVersion`: the request may reject (transport/parse error), resolve
with falsy `response.data`, or resolve with a single descriptor object or an
array of descriptors. -/
inductive FetchResult where
  | failure
  | noData
  | single (u : UpdateInfo)
  | listResp (us : List UpdateInfo)
deriving DecidableEq, Repr

/-- Body of `checkForNewVersion` from the point where one descriptor
`updateInfo` is in hand (`updater.ts` lines 100–121): resolve the local
version for the descriptor's track (which may initialize the store), compare,
and either rebuild the descriptor field by field or return `null`. -/
def checkOne (env : Env) (st : Store) (u : UpdateInfo) :
    Option UpdateInfo × Store :=
  let (localVersion, st') := getLocalVersion env st u.updateType
  if isNewerVersion u.version localVersion then
    (some { version := u.version
            updateType := u.updateType
            url := u.url
            web_assets_url := u.web_assets_url
            notes := u.notes
            sessionKey := u.sessionKey }, st')
  else (none, st')

/-- Models `Updater.checkForNewVersion()` (`updater.ts` lines 84–126): a rejected
fetch is caught and yields `null`; falsy `response.data` yields `null`; an
array response is narrowed to its first element (an empty array makes the
subsequent property access throw, which the same `catch` turns into `null`);
a single object is used directly. -/
def checkForNewVersion (env : Env) (st : Store) (fr : FetchResult) :
    Option UpdateInfo × Store :=
  match fr with
  | .failure => (none, st)
  | .noData => (none, st)
  | .single u => checkOne env st u
  | .listResp us =>
      match us with
      | [] => (none, st)
      | u :: _ => checkOne env st u

/-- Models `Updater.checkForUpdates()` (`updater.ts` lines 67–82) on the Android
platform: run the check and, when a descriptor is returned, create the
consent prompt for it (`promptForUpdate`). The returned `Option UpdateInfo`
is the descriptor surfaced to the user, `none` when no dialog was created. -/
def checkForUpdatesRun (env : Env) (st : Store) (fr : FetchResult) :
    Store × Option UpdateInfo :=
  let (info, st') := checkForNewVersion env st fr
  (st', info)

/-! ## Asset-track applier (`web_assets_updater.ts`, class `assetsUpdater`) -/

/-- The constant `APP_VERSION_KEY` (`web_assets_updater.ts` line 8): the `localStorage`
key the assets applier reads and writes. -/
def APP_VERSION_KEY : String := "appVersion"

/-- Observable steps of the asset-track applier: Capacitor plugin calls,
`localStorage` writes, and user-facing dialogs. `dialogRolledBack` and
`dialogSuccess` carry a restart button whose handler reloads the app;
`dialogRollbackFailed` tells the user to restart manually and offers no
automated action. -/
inductive BEvent where
  | capDownload
  | capSet
  | capReset
  | storeWrite (key val : String)
  | dialogSuccess
  | dialogRolledBack
  | dialogRollbackFailed
deriving DecidableEq, Repr

/-- Outcomes of the asset-track collaborator calls for one run:
whether `CapacitorUpdater.download` resolves (and with which
`downloadedUpdate.version`), whether `CapacitorUpdater.set` resolves, and
whether `CapacitorUpdater.reset` resolves. -/
structure BundleOracle where
  downloadOk : Bool
  downloadedVersion : String
  setOk : Bool
  resetOk : Bool
deriving DecidableEq, Repr

/-- Result of a run of the asset-track applier: the final `localStorage`,
the event trace, and the applier's `previousVersion` instance field. -/
structure BundleResult where
  store : Store
  events : List BEvent
  prev : Option String
deriving DecidableEq, Repr

/-- Models `assetsUpdater.getLocalVersion()` (`web_assets_updater.ts` lines 15–25):
read `APP_VERSION_KEY`; a truthy stored value is returned, otherwise
`process.env.APP_VERSION || '1.0.0'`. No write-back. -/
def assetsGetLocalVersion (env : Env) (st : Store) : String :=
  match st.get APP_VERSION_KEY with
  | some v => if v = "" then envDefault env else v
  | none => envDefault env

/-- Models `assetsUpdater.setLocalVersion(version)` (lines 27–33). -/
def assetsSetLocalVersion (st : Store) (v : String) : Store :=
  st.set APP_VERSION_KEY v

/-- Models `assetsUpdater.rollbackUpdate()` (`web_assets_updater.ts` lines 118–150)
given the current `previousVersion` field: a falsy `previousVersion` skips
the rollback entirely; otherwise `CapacitorUpdater.reset()` runs, and on
success `previousVersion` is written to `APP_VERSION_KEY` and the
rolled-back dialog (with its restart button) is raised, while a rejection of
`reset()` is caught and only the rollback-failed dialog is raised — no
version write, no retry, no further automatic step. -/
def rollbackUpdate (st : Store) (prev : Option String) (resetOk : Bool) :
    Store × List BEvent :=
  match prev with
  | none => (st, [])
  | some p =>
      if p = "" then (st, [])
      else if resetOk then
        (assetsSetLocalVersion st p,
          [BEvent.capReset, BEvent.storeWrite APP_VERSION_KEY p,
            BEvent.dialogRolledBack])
      else (st, [BEvent.capReset, BEvent.dialogRollbackFailed])

/-- Models `assetsUpdater.applyUpdate(downloadedUpdate)` (lines 91–116) given the
`previousVersion` field: `CapacitorUpdater.set` then, on success, the new
version is written to `APP_VERSION_KEY` and the success dialog (restart) is
raised; a rejection of `set` is caught and `rollbackUpdate` runs. -/
def applyUpdate (st : Store) (prev : Option String) (handleVersion : String)
    (setOk resetOk : Bool) : Store × List BEvent :=
  if setOk then
    (assetsSetLocalVersion st handleVersion,
      [BEvent.capSet, BEvent.storeWrite APP_VERSION_KEY handleVersion,
        BEvent.dialogSuccess])
  else
    ((rollbackUpdate st prev resetOk).1,
      BEvent.capSet :: (rollbackUpdate st prev resetOk).2)

/-- Models `assetsUpdater.performUpdate(updateInfo)` (lines 49–64) on Android:
`downloadUpdate` catches its own rejection and returns `null`, in which case
nothing further happens; on a successful download the applier captures
`previousVersion := getLocalVersion()` (read from `APP_VERSION_KEY`) and runs
`applyUpdate`. `downloadUpdate` and `applyUpdate` both swallow their errors,
so `performUpdate` always resolves. -/
def assetsPerformUpdate (env : Env) (st : Store) (o : BundleOracle) :
    BundleResult :=
  if o.downloadOk then
    let prev := assetsGetLocalVersion env st
    let (st', ev) :=
      applyUpdate st (some prev) o.downloadedVersion o.setOk o.resetOk
    { store := st', events := BEvent.capDownload :: ev, prev := some prev }
  else
    { store := st, events := [BEvent.capDownload], prev := none }

/-! ## Package-track applier (`apk_updater.ts`, class `ApkUpdater`) -/

/-- Observable steps of the package-track applier. `dialogDownloadFailed` is
the generic "Failed to download or prepare the APK" notice with a single OK
button; `dialogRetry` is the "Would you like to try again?" offer;
`dialogInitiated` is the post-launch notice. -/
inductive AEvent where
  | httpGet
  | fsWrite
  | fsGetUri
  | openInstaller
  | dialogInitiated
  | dialogRetry
  | dialogDownloadFailed
deriving DecidableEq, Repr

/-- Outcomes of the package-track collaborator calls for one run. -/
structure ApkOracle where
  httpOk : Bool
  status : Nat
  hasData : Bool
  writeOk : Bool
  getUriOk : Bool
  uri : String
  openOk : Bool
deriving DecidableEq, Repr

/-- Result of a run of the package-track applier: the event trace and the
`fileInfo` handle retained at the end (`none` when no artifact handle
exists). The applier never touches `localStorage`. -/
structure ApkResult where
  events : List AEvent
  fileInfo : Option String
deriving DecidableEq, Repr

/-- Models `ApkUpdater.launchInstaller(fileInfo, updateInfo)` (`apk_updater.ts`
lines 73–105): `FileOpener.open` on the artifact; on success the initiation
dialog is raised, a rejection is caught and the retry offer is raised.
Either way the promise resolves. -/
def launchInstaller (openOk : Bool) : List AEvent :=
  if openOk then [AEvent.openInstaller, AEvent.dialogInitiated]
  else [AEvent.openInstaller, AEvent.dialogRetry]

/-- Models `ApkUpdater.performUpdate(updateInfo)` (`apk_updater.ts` lines 13–71) on
Android: `CapacitorHttp.get`; on `status === 200 && data` the blob is written
to the cache, its URI resolved into `fileInfo`, and the installer launched;
any other status throws. The `catch` distinguishes on `fileInfo`: with no
handle it raises the generic download-failed dialog; `Filesystem.writeFile`
or `Filesystem.getUri` rejecting also reaches the `catch` with `fileInfo`
still `null`. -/
def apkPerformUpdate (o : ApkOracle) : ApkResult :=
  if o.httpOk then
    if o.status = 200 && o.hasData then
      if o.writeOk then
        if o.getUriOk then
          { events := AEvent.httpGet :: AEvent.fsWrite :: AEvent.fsGetUri ::
              launchInstaller o.openOk
            fileInfo := some o.uri }
        else
          { events := [AEvent.httpGet, AEvent.fsWrite, AEvent.fsGetUri,
              AEvent.dialogDownloadFailed]
            fileInfo := none }
      else
        { events := [AEvent.httpGet, AEvent.fsWrite,
            AEvent.dialogDownloadFailed]
          fileInfo := none }
    else
      { events := [AEvent.httpGet, AEvent.dialogDownloadFailed]
        fileInfo := none }
  else
    { events := [AEvent.httpGet, AEvent.dialogDownloadFailed]
      fileInfo := none }

/-! ## Coordinator (`updater.ts`, `promptForUpdate` and the trigger path) -/

/-- Result of one accepted consent cycle: final `localStorage` plus the two
applier traces (exactly one of them non-empty). -/
structure CycleResult where
  store : Store
  bundleEvents : List BEvent
  apkEvents : List AEvent
deriving DecidableEq, Repr

/-- The `onOk` handler of `Updater.promptForUpdate` (`updater.ts` lines
210–231): dispatch on `updateType` to `apkUpdater.performUpdate` or
`assetsUpdater.performUpdate`, then call
`updateLocalVersion(updateType, version)`. Both appliers catch their own
errors and resolve, so the handler's `catch` is not reached and the version
write runs on every accepted cycle, whether or not the applier succeeded. -/
def acceptedUpdateCycle (env : Env) (st : Store) (u : UpdateInfo)
    (apkO : ApkOracle) (bO : BundleOracle) : CycleResult :=
  if u.updateType = "apk" then
    let r := apkPerformUpdate apkO
    { store := updateLocalVersion st u.updateType u.version
      bundleEvents := []
      apkEvents := r.events }
  else
    let r := assetsPerformUpdate env st bO
    { store := updateLocalVersion r.store u.updateType u.version
      bundleEvents := r.events
      apkEvents := [] }

/-- The `onCancel` handler of `Updater.promptForUpdate` (lines 232–234):
only a log statement, no store access. -/
def declinedCycle (st : Store) : Store :=
  st

/-! ## Trigger model (`updater.ts`, `initialize` and `checkForUpdates`)

`checkForUpdates` (lines 67–82) guards only on the platform and then awaits
`checkForNewVersion`; the `Updater` class holds no in-flight flag, so every
trigger suspends one more invocation at the fetch `await`. `initialize`
(line 47) schedules `setInterval(() => this.checkForUpdates(), 30*60*1000)`;
the callback is not awaited, so the interval fires on its fixed schedule
regardless of whether earlier invocations have completed. `pending` counts
the invocations currently suspended between their fetch request and its
resolution. -/
structure CoordState where
  pending : Nat
deriving DecidableEq, Repr

/-- A timer tick or manual call of `checkForUpdates` on Android: the body
starts unconditionally, adding one suspended invocation. -/
def coordTrigger (s : CoordState) : CoordState :=
  { pending := s.pending + 1 }

/-- One suspended invocation's fetch resolves and the invocation finishes. -/
def coordComplete (s : CoordState) : CoordState :=
  { pending := s.pending - 1 }

/-- Models `setInterval(cb, 30*60*1000)`: the `n`-th firing time in milliseconds,
a fixed schedule independent of the coordinator state. -/
def intervalFireTime (n : Nat) : Nat :=
  (30 * 60 * 1000) * (n + 1)

/-! ## Helper lemmas about the comparator -/

/-- Lexicographic strictly-greater on integer triples, the mathematical
comparison the loop implements on fully parsed inputs. -/
def lexGt (x y z u v w : Int) : Bool :=
  decide (x > u ∨ x = u ∧ (y > v ∨ y = v ∧ z > w))

theorem decideAt_some (rp lp : List (Option Int)) (i : Nat) (x u : Int)
    (hr : rp.getD i none = some x) (hl : lp.getD i none = some u) :
    decideAt rp lp i =
      (if x > u then some true else if x < u then some false else none) := by
  simp only [decideAt]
  rw [hr, hl]
  simp [jsGT, jsLT]

theorem jsGT_none_left (b : Option Int) : jsGT none b = false := by
  cases b <;> rfl

theorem jsGT_none_right (a : Option Int) : jsGT a none = false := by
  cases a <;> rfl

theorem jsLT_none_left (b : Option Int) : jsLT none b = false := by
  cases b <;> rfl

theorem jsLT_none_right (a : Option Int) : jsLT a none = false := by
  cases a <;> rfl

/-- Fully-parsed three-component strings: the loop computes the
lexicographic order on the coerced triples. -/
theorem isNewer_eq_lexGt (a b : String) (x y z u v w : Int)
    (ha : parseParts a = [some x, some y, some z])
    (hb : parseParts b = [some u, some v, some w]) :
    isNewerVersion a b = lexGt x y z u v w := by
  have hae : ¬a = "" := by
    intro h
    rw [h] at ha
    have : parseParts "" = [some 0] := by decide
    rw [this] at ha
    simp at ha
  have hbe : ¬b = "" := by
    intro h
    rw [h] at hb
    have : parseParts "" = [some 0] := by decide
    rw [this] at hb
    simp at hb
  have h0 := decideAt_some (parseParts a) (parseParts b) 0 x u
    (by rw [ha]; rfl) (by rw [hb]; rfl)
  have h1 := decideAt_some (parseParts a) (parseParts b) 1 y v
    (by rw [ha]; rfl) (by rw [hb]; rfl)
  have h2 := decideAt_some (parseParts a) (parseParts b) 2 z w
    (by rw [ha]; rfl) (by rw [hb]; rfl)
  rw [isNewerVersion]
  rw [if_neg (by simp [hae, hbe])]
  simp only [h0, h1, h2]
  rcases lt_trichotomy x u with h | h | h <;>
    rcases lt_trichotomy y v with h' | h' | h' <;>
      rcases lt_trichotomy z w with h'' | h'' | h'' <;>
        simp [lexGt, h, h', h'', lt_asymm, lt_irrefl, Option.orElse,
          not_lt_of_gt, le_of_lt, le_of_eq] <;>
          omega

/-- A position where either operand is `NaN`/`undefined`, or where the two
operands are equal, decides nothing: the loop falls through. -/
def skipOrEq (a b : Option Int) : Prop :=
  a = none ∨ b = none ∨ a = b

instance (a b : Option Int) : Decidable (skipOrEq a b) := by
  unfold skipOrEq
  infer_instance

theorem decideAt_skip (rp lp : List (Option Int)) (i : Nat)
    (h : skipOrEq (rp.getD i none) (lp.getD i none)) :
    decideAt rp lp i = none := by
  simp only [decideAt]
  rcases h with h | h | h
  · rw [h, jsGT_none_left, jsLT_none_left]
    rfl
  · rw [h, jsGT_none_right, jsLT_none_right]
    rfl
  · rw [h]
    rcases hv : lp.getD i none with _ | c
    · rw [jsGT_none_left, jsLT_none_left]
      rfl
    · simp [jsGT, jsLT]

/-! ## Claim theorems -/

/-- C3 counterexample. The claim asserts that a missing trailing component
is treated as `0`, so that `isNewer("1.0.1", "1.0")` is `true`. On the code,
`localParts[2]` is `undefined`, `1 > undefined` and `1 < undefined` are both
`false`, the loop falls through, and the result is `false`. -/
theorem C3_counterexample : isNewerVersion "1.0.1" "1.0" = false := by
  decide

/-- C3 (amended): for a remote that parses into three integer components and
a local with only two, the comparison is decided by components `0` and `1`
alone — a missing trailing component is never treated as `0`; it decides
nothing, and when the first two components tie, the result is `false`
regardless of the remote's third component (hence
`isNewer("1.0.1", "1.0") = false`). -/
theorem C3_missing_component_never_decides (r l : String) (x y z u v : Int)
    (hr : parseParts r = [some x, some y, some z])
    (hl : parseParts l = [some u, some v]) :
    isNewerVersion r l =
      (if x > u then true else if x < u then false
       else if y > v then true else if y < v then false else false) := by
  have hre : ¬r = "" := by
    intro h
    rw [h] at hr
    have : parseParts "" = [some 0] := by decide
    rw [this] at hr
    simp at hr
  have hle : ¬l = "" := by
    intro h
    rw [h] at hl
    have : parseParts "" = [some 0] := by decide
    rw [this] at hl
    simp at hl
  have h0 := decideAt_some (parseParts r) (parseParts l) 0 x u
    (by rw [hr]; rfl) (by rw [hl]; rfl)
  have h1 := decideAt_some (parseParts r) (parseParts l) 1 y v
    (by rw [hr]; rfl) (by rw [hl]; rfl)
  have h2 : decideAt (parseParts r) (parseParts l) 2 = none := by
    apply decideAt_skip
    right
    left
    rw [hl]
    rfl
  rw [isNewerVersion]
  rw [if_neg (by simp [hre, hle])]
  simp only [h0, h1, h2]
  rcases lt_trichotomy x u with h | h | h <;>
    rcases lt_trichotomy y v with h' | h' | h' <;>
      simp [h, h', lt_asymm, lt_irrefl, Option.orElse, not_lt_of_gt]

/-- C3 witness: the amended statement instantiated at the pair from the
claim, `("1.0.1", "1.0")`, where the nested conditional evaluates to
`false`. -/
theorem C3_witness :
    parseParts "1.0.1" = [some 1, some 0, some 1] ∧
    parseParts "1.0" = [some 1, some 0] ∧
    isNewerVersion "1.0.1" "1.0" =
      (if (1 : Int) > 1 then true else if (1 : Int) < 1 then false
       else if (0 : Int) > 0 then true else if (0 : Int) < 0 then false
       else false) :=
  ⟨by decide, by decide,
    C3_missing_component_never_decides "1.0.1" "1.0" 1 0 1 1 0
      (by decide) (by decide)⟩

/-- C5: on valid dotted triplets, `isNewerVersion` is irreflexive (equal
strings compare `false`) and antisymmetric (for parsed pairs, both directions
are never simultaneously `true`). -/
theorem C5_isNewer_irrefl_antisym (a b : String) (x y z u v w : Int)
    (ha : parseParts a = [some x, some y, some z])
    (hb : parseParts b = [some u, some v, some w]) :
    (a = b → isNewerVersion a b = false) ∧
    ¬(isNewerVersion a b = true ∧ isNewerVersion b a = true) := by
  constructor
  · intro hab
    subst hab
    have hx : x = u ∧ y = v ∧ z = w := by
      have hxx := ha.symm.trans hb
      simpa using hxx
    obtain ⟨e1, e2, e3⟩ := hx
    subst e1; subst e2; subst e3
    rw [isNewer_eq_lexGt a a x y z x y z ha hb]
    simp only [lexGt, decide_eq_false_iff_not]
    omega
  · rintro ⟨hab, hba⟩
    rw [isNewer_eq_lexGt a b x y z u v w ha hb] at hab
    rw [isNewer_eq_lexGt b a u v w x y z hb ha] at hba
    simp only [lexGt, decide_eq_true_eq] at hab hba
    omega

/-- C5 witness: the pair `("1.2.3", "1.2.4")` parses, and the two directions
of the comparison are not both `true`. -/
theorem C5_witness :
    parseParts "1.2.3" = [some 1, some 2, some 3] ∧
    parseParts "1.2.4" = [some 1, some 2, some 4] ∧
    ¬(isNewerVersion "1.2.3" "1.2.4" = true ∧
      isNewerVersion "1.2.4" "1.2.3" = true) ∧
    isNewerVersion "1.2.3" "1.2.3" = false :=
  ⟨by decide, by decide,
    (C5_isNewer_irrefl_antisym "1.2.3" "1.2.4" 1 2 3 1 2 4
      (by decide) (by decide)).2,
    (C5_isNewer_irrefl_antisym "1.2.3" "1.2.3" 1 2 3 1 2 3
      (by decide) (by decide)).1 rfl⟩

/-- C6 counterexample. The claim asserts that a parse failure at any
compared position forces the result `false`. On the code, a `NaN` component
only falls through its own position: with the claim's own malformed remote
`"1.a.0"` and local `"0.0.0"`, position `0` decides `1 > 0` before the
malformed position is reached, and the result is `true`. -/
theorem C6_counterexample : isNewerVersion "1.a.0" "0.0.0" = true := by
  decide

/-- C6 (amended): a component that fails to parse (or is missing) never
itself decides the comparison and never throws — `NaN` comparisons are
`false` both ways, so such a position falls through; consequently, whenever
every one of the three examined positions is malformed, missing, or an exact
tie, `isNewerVersion` returns `false`, and such a check cycle ends with no
update found. In particular `isNewer("1.a.0", "1.0.0") = false`. -/
theorem C6_indeterminate_positions_yield_false (r l : String)
    (h : ∀ i, i < 3 →
      skipOrEq ((parseParts r).getD i none) ((parseParts l).getD i none)) :
    isNewerVersion r l = false ∧
    (∀ (env : Env) (st : Store) (u : UpdateInfo), u.version = r →
      (getLocalVersion env st u.updateType).1 = l →
      (checkForNewVersion env st (.single u)).1 = none) := by
  have hfalse : isNewerVersion r l = false := by
    rw [isNewerVersion]
    by_cases he : r = "" ∨ l = ""
    · rw [if_pos (by simpa using he)]
    · rw [if_neg (by simpa using he)]
      have h0 := decideAt_skip (parseParts r) (parseParts l) 0
        (h 0 (by omega))
      have h1 := decideAt_skip (parseParts r) (parseParts l) 1
        (h 1 (by omega))
      have h2 := decideAt_skip (parseParts r) (parseParts l) 2
        (h 2 (by omega))
      simp [h0, h1, h2, Option.orElse]
  refine ⟨hfalse, ?_⟩
  intro env st u hver hloc
  rcases hgl : getLocalVersion env st u.updateType with ⟨lv, st'⟩
  have hlv : lv = l := by
    rw [hgl] at hloc
    exact hloc
  simp only [checkForNewVersion, checkOne, hgl, hver, hlv, hfalse]
  simp

/-- C6 witness: the malformed remote `"1.a.0"` against the well-formed local
`"1.0.0"`: every examined position is a tie or malformed, and the comparison
returns `false`. -/
theorem C6_witness :
    (∀ i, i < 3 →
      skipOrEq ((parseParts "1.a.0").getD i none)
        ((parseParts "1.0.0").getD i none)) ∧
    isNewerVersion "1.a.0" "1.0.0" = false ∧
    (checkForNewVersion { appVersion := some "1.0.0" }
        { entries := [("assetsVersion", "1.0.0")] }
        (FetchResult.single
          { version := "1.a.0", notes := none, url := "u",
            sessionKey := "sk", updateType := "web_assets",
            web_assets_url := "w" })).1 = none :=
  ⟨by decide,
    (C6_indeterminate_positions_yield_false "1.a.0" "1.0.0" (by decide)).1,
    (C6_indeterminate_positions_yield_false "1.a.0" "1.0.0" (by decide)).2
      { appVersion := some "1.0.0" }
      { entries := [("assetsVersion", "1.0.0")] }
      { version := "1.a.0", notes := none, url := "u", sessionKey := "sk",
        updateType := "web_assets", web_assets_url := "w" }
      rfl (by decide)⟩

/-- C7: the check evaluates exactly one descriptor per cycle — an array
response is narrowed to its first element, and a single object is used
directly — and returns the descriptor with every field equal to the received
one exactly when `isNewerVersion(descriptor.version, local)` holds for the
stored version of the descriptor's track, else `null`. -/
theorem C7_check_single_descriptor (env : Env) (st : Store) (u : UpdateInfo)
    (rest : List UpdateInfo) :
    checkForNewVersion env st (.listResp (u :: rest)) =
      checkForNewVersion env st (.single u) ∧
    checkForNewVersion env st (.single u) =
      (if isNewerVersion u.version (getLocalVersion env st u.updateType).1
       then some u else none,
       (getLocalVersion env st u.updateType).2) := by
  constructor
  · rfl
  · rcases hgl : getLocalVersion env st u.updateType with ⟨lv, st'⟩
    simp only [checkForNewVersion, checkOne, hgl]
    by_cases hn : isNewerVersion u.version lv = true
    · simp [hn]
    · simp [hn]

/-- C8: a transport or parse failure from the remote collaborator is caught
inside the check: the result is `null`, the store is untouched, no consent
dialog is surfaced, and the next interval tick still starts a fresh check
(the trigger is state-independent). -/
theorem C8_check_failure_recovered (env : Env) (st : Store) (s : CoordState) :
    checkForNewVersion env st .failure = (none, st) ∧
    checkForUpdatesRun env st .failure = (st, none) ∧
    coordTrigger s = { pending := s.pending + 1 } := by
  exact ⟨rfl, rfl, rfl⟩

/-- C2 counterexample. The claim asserts a trigger arriving while a cycle is
in flight is a no-op. On the code, `checkForUpdates` guards only on the
platform and the class holds no in-flight flag, so a trigger while one
invocation is suspended adds a second concurrent invocation. -/
theorem C2_counterexample :
    coordTrigger { pending := 1 } ≠ { pending := 1 } ∧
    (coordTrigger (coordTrigger { pending := 0 })).pending = 2 := by
  decide

/-- C2 (amended): triggers are never coalesced — every timer tick or manual
call on Android starts one more `checkForUpdates` invocation regardless of
how many are already in flight — and the 30-minute `setInterval` fires on a
fixed schedule, the next firing coming 30 minutes after the previous one
whether or not the current cycle has completed. -/
theorem C2_trigger_never_coalesced (s : CoordState) (n : Nat) :
    coordTrigger s = { pending := s.pending + 1 } ∧
    coordTrigger s ≠ s ∧
    intervalFireTime (n + 1) = intervalFireTime n + 30 * 60 * 1000 := by
  refine ⟨rfl, ?_, ?_⟩
  · intro h
    have hp : s.pending + 1 = s.pending := congrArg CoordState.pending h
    omega
  · simp only [intervalFireTime]
    ring

/-- C9: whenever retrieval of the APK artifact fails — the HTTP request
rejects, the status is not `200`, or the body is empty — the run ends with
the generic download-failed dialog, retains no artifact handle, never
invokes the platform installer, and offers no retry. -/
theorem C9_apk_retrieval_failure (o : ApkOracle)
    (h : ¬(o.httpOk = true ∧ o.status = 200 ∧ o.hasData = true)) :
    apkPerformUpdate o =
      { events := [AEvent.httpGet, AEvent.dialogDownloadFailed],
        fileInfo := none } ∧
    AEvent.openInstaller ∉ (apkPerformUpdate o).events ∧
    AEvent.dialogRetry ∉ (apkPerformUpdate o).events := by
  have hmain : apkPerformUpdate o =
      { events := [AEvent.httpGet, AEvent.dialogDownloadFailed],
        fileInfo := none } := by
    rw [apkPerformUpdate]
    cases hh : o.httpOk
    · simp
    · have hc : (o.status = 200 && o.hasData) = false := by
        cases hd : o.hasData
        · simp
        · by_cases hs : o.status = 200
          · exact absurd ⟨hh, hs, hd⟩ h
          · simp [hs]
      simp [hc]
  refine ⟨hmain, ?_, ?_⟩
  · rw [hmain]
    decide
  · rw [hmain]
    decide

/-- C9 witness: an HTTP response with status `404` — the run raises only the
generic failure dialog and keeps no handle. -/
theorem C9_witness :
    apkPerformUpdate
        { httpOk := true, status := 404, hasData := true, writeOk := true,
          getUriOk := true, uri := "file:///cache/update.apk",
          openOk := true } =
      { events := [AEvent.httpGet, AEvent.dialogDownloadFailed],
        fileInfo := none } :=
  (C9_apk_retrieval_failure _ (by decide)).1

/-- Per-track version keys never collide with the assets applier's own key:
`versionKey` yields `"apkVersion"` or `"assetsVersion"`, never
`"appVersion"`. -/
theorem versionKey_ne_appVersionKey (t : String) :
    versionKey t ≠ APP_VERSION_KEY := by
  rw [versionKey]
  by_cases h : t = "apk"
  · rw [if_pos h]
    decide
  · rw [if_neg h]
    decide

/-- Every store write a run of the asset-track applier performs goes to
`APP_VERSION_KEY`. -/
theorem assetsPerformUpdate_store_shape (env : Env) (st : Store)
    (o : BundleOracle) :
    (assetsPerformUpdate env st o).store = st ∨
    ∃ v, (assetsPerformUpdate env st o).store = st.set APP_VERSION_KEY v := by
  cases hd : o.downloadOk
  · left
    simp [assetsPerformUpdate, hd]
  · cases hs : o.setOk
    · cases hr : o.resetOk
      · left
        by_cases hp : assetsGetLocalVersion env st = "" <;>
          simp [assetsPerformUpdate, applyUpdate, rollbackUpdate,
            hd, hs, hr, hp]
      · by_cases hp : assetsGetLocalVersion env st = ""
        · left
          simp [assetsPerformUpdate, applyUpdate, rollbackUpdate,
            hd, hs, hr, hp]
        · right
          refine ⟨assetsGetLocalVersion env st, ?_⟩
          simp [assetsPerformUpdate, applyUpdate, rollbackUpdate,
            assetsSetLocalVersion, hd, hs, hr, hp]
    · right
      refine ⟨o.downloadedVersion, ?_⟩
      simp [assetsPerformUpdate, applyUpdate, assetsSetLocalVersion, hd, hs]

/-- C10: the asset-track applier (activation and rollback writes included)
persists versions only under `"appVersion"`, the checker's per-track records
under `versionKey` are distinct keys and are never modified by the applier,
and the `previous` version the applier captures before applying is read from
`"appVersion"` — it depends only on that entry of the store. -/
theorem C10_assets_applier_frame (env : Env) (st : Store) (o : BundleOracle) :
    (∀ k, k ≠ APP_VERSION_KEY →
      (assetsPerformUpdate env st o).store.get k = st.get k) ∧
    (∀ t, (assetsPerformUpdate env st o).store.get (versionKey t) =
      st.get (versionKey t)) ∧
    (o.downloadOk = true →
      (assetsPerformUpdate env st o).prev =
        some (assetsGetLocalVersion env st)) ∧
    (∀ st2 : Store, st2.get APP_VERSION_KEY = st.get APP_VERSION_KEY →
      assetsGetLocalVersion env st2 = assetsGetLocalVersion env st) := by
  have hframe : ∀ k, k ≠ APP_VERSION_KEY →
      (assetsPerformUpdate env st o).store.get k = st.get k := by
    intro k hk
    rcases assetsPerformUpdate_store_shape env st o with h | ⟨v, h⟩
    · rw [h]
    · rw [h]
      exact Store.get_set_ne st APP_VERSION_KEY v k hk
  refine ⟨hframe, ?_, ?_, ?_⟩
  · intro t
    exact hframe (versionKey t) (versionKey_ne_appVersionKey t)
  · intro hd
    rw [assetsPerformUpdate, if_pos (by rw [hd])]
  · intro st2 h2
    rw [assetsGetLocalVersion, assetsGetLocalVersion, h2]

/-- C10 witness: a run whose activation fails and rolls back — the
`"assetsVersion"` record the checker reads is untouched. -/
theorem C10_witness :
    (assetsPerformUpdate { appVersion := some "1.0.0" }
        { entries := [("assetsVersion", "1.0.4"), ("appVersion", "1.0.2")] }
        { downloadOk := true, downloadedVersion := "1.0.5", setOk := false,
          resetOk := true }).store.get "assetsVersion" = some "1.0.4" ∧
    (assetsPerformUpdate { appVersion := some "1.0.0" }
        { entries := [("assetsVersion", "1.0.4"), ("appVersion", "1.0.2")] }
        { downloadOk := true, downloadedVersion := "1.0.5", setOk := false,
          resetOk := true }).prev = some "1.0.2" := by
  constructor
  · rw [(C10_assets_applier_frame
      { appVersion := some "1.0.0" }
      { entries := [("assetsVersion", "1.0.4"), ("appVersion", "1.0.2")] }
      { downloadOk := true, downloadedVersion := "1.0.5", setOk := false,
        resetOk := true }).1 "assetsVersion" (by decide)]
    decide
  · rw [(C10_assets_applier_frame
      { appVersion := some "1.0.0" }
      { entries := [("assetsVersion", "1.0.4"), ("appVersion", "1.0.2")] }
      { downloadOk := true, downloadedVersion := "1.0.5", setOk := false,
        resetOk := true }).2.2.1 rfl]
    decide

/-- C4 counterexample. The claim asserts the bundle rollback writes
`previousVersion` into the version record the update checker reads for the
bundle track. On the code, the checker reads `versionKey` of a non-`"apk"`
track, the key `"assetsVersion"`, while the rollback writes `"appVersion"`:
after a successful rollback with `previousVersion = "1.0.3"` the checker's
record still holds `"1.0.4"`. -/
theorem C4_counterexample :
    (rollbackUpdate
        { entries := [("assetsVersion", "1.0.4"), ("appVersion", "1.0.4")] }
        (some "1.0.3") true).1.get "assetsVersion" = some "1.0.4" ∧
    (rollbackUpdate
        { entries := [("assetsVersion", "1.0.4"), ("appVersion", "1.0.4")] }
        (some "1.0.3") true).1.get "appVersion" = some "1.0.3" ∧
    versionKey "bundle" = "assetsVersion" := by
  decide

/-- C4 (amended): the bundle rollback calls the revert primitive first, then
writes `previousVersion` under the applier's own `"appVersion"` key — not
the `"assetsVersion"` record the checker reads, which is left unchanged —
then raises the rolled-back dialog that restarts the app; if the revert
primitive itself rejects, the user is told to intervene manually, no version
write occurs, and no further automatic recovery is attempted. -/
theorem C4_rollback_order_and_fatal (st : Store) (p : String) (hp : p ≠ "") :
    rollbackUpdate st (some p) true =
      (st.set APP_VERSION_KEY p,
        [BEvent.capReset, BEvent.storeWrite APP_VERSION_KEY p,
          BEvent.dialogRolledBack]) ∧
    (rollbackUpdate st (some p) true).1.get (versionKey "bundle") =
      st.get (versionKey "bundle") ∧
    rollbackUpdate st (some p) false =
      (st, [BEvent.capReset, BEvent.dialogRollbackFailed]) := by
  have h1 : rollbackUpdate st (some p) true =
      (st.set APP_VERSION_KEY p,
        [BEvent.capReset, BEvent.storeWrite APP_VERSION_KEY p,
          BEvent.dialogRolledBack]) := by
    rw [rollbackUpdate]
    rw [if_neg hp, if_pos rfl]
    rfl
  refine ⟨h1, ?_, ?_⟩
  · rw [h1]
    exact Store.get_set_ne st APP_VERSION_KEY p (versionKey "bundle")
      (versionKey_ne_appVersionKey "bundle")
  · rw [rollbackUpdate]
    rw [if_neg hp, if_neg (by simp)]

/-- C4 witness: rollback to `"1.0.3"` with a successful revert — the revert
runs first, the write goes to `"appVersion"`, and the restart dialog
follows. -/
theorem C4_witness :
    rollbackUpdate { entries := [("assetsVersion", "1.0.4")] }
        (some "1.0.3") true =
      (Store.set { entries := [("assetsVersion", "1.0.4")] }
        APP_VERSION_KEY "1.0.3",
        [BEvent.capReset, BEvent.storeWrite APP_VERSION_KEY "1.0.3",
          BEvent.dialogRolledBack]) :=
  (C4_rollback_order_and_fatal { entries := [("assetsVersion", "1.0.4")] }
    "1.0.3" (by decide)).1

/-- C1: the code contradicts the invariant. In an accepted bundle-track
cycle whose download fails, the applier resolves normally after swallowing
the failure, so the `onOk` handler of `promptForUpdate` still calls
`updateLocalVersion` and the `"assetsVersion"` record advances from
`"1.0.4"` to `"1.0.5"` even though nothing was downloaded, activated, or
installed (the trace holds the failed download call and nothing else). -/
theorem C1_failed_cycle_advances_record :
    let st0 : Store :=
      { entries := [("apkVersion", "1.0.4"), ("assetsVersion", "1.0.4"),
          ("appVersion", "1.0.4")] }
    let u : UpdateInfo :=
      { version := "1.0.5", notes := none, url := "https://x/bundle.zip",
        sessionKey := "sk", updateType := "web_assets",
        web_assets_url := "https://x/assets" }
    let bO : BundleOracle :=
      { downloadOk := false, downloadedVersion := "1.0.5", setOk := true,
        resetOk := true }
    let apkO : ApkOracle :=
      { httpOk := true, status := 200, hasData := true, writeOk := true,
        getUriOk := true, uri := "", openOk := true }
    let r := acceptedUpdateCycle { appVersion := some "1.0.0" } st0 u apkO bO
    r.store.get "assetsVersion" = some "1.0.5" ∧
      r.bundleEvents = [BEvent.capDownload] ∧
      declinedCycle st0 = st0 := by
  decide

end QuasarUpdater
